import Mathlib

/-!
Shallow embedding of the WhatsApp RPC client session layer
(`src/python/whatsapp_rpc/client.py`, class `WhatsAppRPCClient`) together
with the registered event handler of the web layer (`web/app.py`,
function `on_event` inside `init_rpc_client`).

The embedding models:
  * JSON values as an inductive type (integer numerics);
  * the pending-request correlation table (a Python `dict[int, Future]`)
    as an association list from request ids to future slots, where a
    future slot is `none` (unresolved) or `some response` (resolved);
  * the frame dispatch of `_receive_loop` as a step function over the
    table, returning the action taken for the frame;
  * `call` as a function of the pre-state and of two oracles standing
    for the external world: whether `ws.send` succeeds, and the
    resolution the future receives (`none` standing for a timeout of
    `asyncio.wait_for`);
  * `connect` (success path) and `close` as state transformers.
-/

namespace WhatsappRpc

/-- JSON values, as produced by `json.loads` on inbound frames.  Numbers
are modelled as integers (the wire protocol uses integer ids and codes). -/
inductive Json where
  | null
  | bool (b : Bool)
  | num (n : Int)
  | str (s : String)
  | arr (xs : List Json)
  | obj (fields : List (String × Json))

/-- Python truthiness of a JSON value, as used by
`if "error" in response and response["error"]:` in `call`. -/
def pyTruthy : Json → Bool
  | Json.null => false
  | Json.bool b => b
  | Json.num n => decide (n ≠ 0)
  | Json.str s => decide (s ≠ "")
  | Json.arr xs => !xs.isEmpty
  | Json.obj fs => !fs.isEmpty

/-- Lookup in an association list modelling a Python dict (keys are
unique in a genuine dict, so first-match lookup is faithful). -/
def lookupKey {α β : Type} [DecidableEq α] (k : α) : List (α × β) → Option β
  | [] => none
  | e :: l => if e.1 = k then some e.2 else lookupKey k l

/-- Dict write `d[k] = v`: overwrite in place if the key is present,
append otherwise. -/
def pSet {α β : Type} [DecidableEq α] (l : List (α × β)) (k : α) (v : β) :
    List (α × β) :=
  if (lookupKey k l).isSome then
    l.map (fun e => if e.1 = k then (k, v) else e)
  else l ++ [(k, v)]

/-- Dict removal `d.pop(k, None)`: drop the entry with key `k`. -/
def pPop {α β : Type} [DecidableEq α] (l : List (α × β)) (k : α) :
    List (α × β) :=
  l.filter (fun e => !decide (e.1 = k))

/-- Python `d.get(k, default)` on the fields of a JSON object. -/
def jGetD (fs : List (String × Json)) (k : String) (d : Json) : Json :=
  (lookupKey k fs).getD d

/-- List-of-characters test that `p` is an initial segment of `s`
(Python `str.startswith`). -/
def startsList : List Char → List Char → Bool
  | [], _ => true
  | _ :: _, [] => false
  | p :: ps, c :: cs => decide (p = c) && startsList ps cs

/-- Python `s.startswith(pre)`. -/
def pyStarts (s pre : String) : Bool :=
  startsList pre.data s.data

/-- Fuel-driven scan implementing Python `str.replace` on character
lists: replace non-overlapping occurrences of `pat` left to right.  Each
step consumes at least one character, so fuel equal to the length of the
input suffices; the fuel makes the recursion structural. -/
def replFuel (pat rep : List Char) : Nat → List Char → List Char
  | _, [] => []
  | 0, s => s
  | fuel + 1, c :: rest =>
    if startsList pat (c :: rest) && !pat.isEmpty then
      rep ++ replFuel pat rep fuel ((c :: rest).drop pat.length)
    else c :: replFuel pat rep fuel rest

/-- Python `s.replace(pat, rep)` for a non-empty pattern: every
non-overlapping occurrence of `pat` in `s` is replaced by `rep`. -/
def pyReplace (s pat rep : String) : String :=
  String.mk (replFuel pat.data rep.data s.data.length s.data)

/-- How a frame id value behaves as a key of the Python dict
`self.pending` (whose keys are the ints allocated by `call`): integers
and booleans hash-match a non-negative int key, strings never match an
int key, and lists or dicts are unhashable, so the membership test
`req_id in self.pending` raises `TypeError`. -/
inductive IdKey where
  | key (k : Nat)
  | nomatch
  | unhashable

/-- Interpret the value of the `id` field as a dict key (see `IdKey`). -/
def idKey : Json → IdKey
  | Json.num n => if 0 ≤ n then IdKey.key n.toNat else IdKey.nomatch
  | Json.bool b => IdKey.key (if b then 1 else 0)
  | Json.str _ => IdKey.nomatch
  | Json.null => IdKey.nomatch
  | Json.arr _ => IdKey.unhashable
  | Json.obj _ => IdKey.unhashable

/-- The action `_receive_loop` takes for one parsed frame.
`dupResolve`, `unhashableId` and `badMethod` stand for exceptions that
escape the inner `try` (only `json.JSONDecodeError` is caught there) and
therefore terminate the loop. -/
inductive FrameAction where
  | resolved (k : Nat)
  | dupResolve (k : Nat)
  | droppedId
  | eventInvoked (frame : Json)
  | eventNoHandler
  | ignored
  | badMethod
  | unhashableId
  | parseErr

/-- Whether the action makes the receive loop terminate (an exception
not caught by the inner `try`). -/
def FrameAction.fatal : FrameAction → Bool
  | FrameAction.dupResolve _ => true
  | FrameAction.unhashableId => true
  | FrameAction.badMethod => true
  | _ => false

/-- The `elif data.get("method", "").startswith("event.")` branch of
the receive loop: a non-string method value raises `AttributeError`
(fatal to the loop); otherwise a frame whose method starts with the
reserved `"event."` string is delivered whole to the event callback
when one is registered (`cb`). -/
def eventStep (cb : Bool) (pending : List (Nat × Option Json))
    (fields : List (String × Json)) :
    List (Nat × Option Json) × FrameAction :=
  match jGetD fields "method" (Json.str "") with
  | Json.str m =>
    if pyStarts m "event." then
      (pending, if cb then FrameAction.eventInvoked (Json.obj fields)
                else FrameAction.eventNoHandler)
    else (pending, FrameAction.ignored)
  | _ => (pending, FrameAction.badMethod)

/-- Dispatch of one parsed frame by `_receive_loop` (lines 80-91 of
`client.py`): a frame with a present, non-null id resolves the matching
pending future with the whole frame (leaving the entry in the table,
now resolved); a frame with no id (or a null id) whose method string
starts with `"event."` is handed, whole, to the event callback when one
is registered; anything else is ignored.  `cb` is whether
`self.event_callback` is set. -/
def stepFrame (cb : Bool) (pending : List (Nat × Option Json))
    (fields : List (String × Json)) :
    List (Nat × Option Json) × FrameAction :=
  match lookupKey "id" fields with
  | some v =>
    match v with
    | Json.null => eventStep cb pending fields
    | _ =>
      match idKey v with
      | IdKey.key k =>
        match lookupKey k pending with
        | some none =>
          (pSet pending k (some (Json.obj fields)), FrameAction.resolved k)
        | some (some _) => (pending, FrameAction.dupResolve k)
        | none => (pending, FrameAction.droppedId)
      | IdKey.nomatch => (pending, FrameAction.droppedId)
      | IdKey.unhashable => (pending, FrameAction.unhashableId)
  | none => eventStep cb pending fields

/-- One raw inbound WebSocket message: either text that fails
`json.loads` or a parsed JSON object frame. -/
inductive Msg where
  | bad
  | frame (fields : List (String × Json))

/-- The receive loop over a list of inbound messages: a message that
fails to parse is logged and skipped (the inner `except
json.JSONDecodeError` branch); a fatal frame action terminates the loop
(its exception is only caught by the outer handler).  Returns the final
pending table, the trace of actions, and whether the loop is still
running after the messages. -/
def runLoop (cb : Bool) (pending : List (Nat × Option Json)) :
    List Msg → List (Nat × Option Json) × List FrameAction × Bool
  | [] => (pending, [], true)
  | Msg.bad :: ms =>
    let r := runLoop cb pending ms
    (r.1, FrameAction.parseErr :: r.2.1, r.2.2)
  | Msg.frame fs :: ms =>
    let s := stepFrame cb pending fs
    if s.2.fatal then (s.1, [s.2], false)
    else
      let r := runLoop cb s.1 ms
      (r.1, s.2 :: r.2.1, r.2.2)

/-- The event handler registered on the client by the web layer
(`on_event` in `web/app.py`): derives the event type from the method by
replacing every occurrence of `"event."` with the empty string when the
method starts with `"event."`, takes the params (default empty object),
and emits `{"type": event_type, "data": params}`.  Returns `none` when
the handler raises internally (a non-string method value), which the
handler catches and logs itself. -/
def on_event (event : List (String × Json)) : Option Json :=
  match jGetD event "method" (Json.str "") with
  | Json.str m =>
    let t := if pyStarts m "event." then pyReplace m "event." "" else m
    some (Json.obj [("type", Json.str t),
                    ("data", jGetD event "params" (Json.obj []))])
  | _ => none

/-- Status of the asyncio receive task. -/
inductive TaskStatus where
  | running
  | done
  | cancelled

/-- `task.cancel()`: a running task becomes cancelled; a finished or
already-cancelled task is unchanged. -/
def cancelTask : TaskStatus → TaskStatus
  | TaskStatus.running => TaskStatus.cancelled
  | TaskStatus.done => TaskStatus.done
  | TaskStatus.cancelled => TaskStatus.cancelled

/-- `await task`: awaiting a cancelled task raises `CancelledError`
(returned as `some` of the exception name); awaiting a finished task
returns normally (the receive loop catches its own exceptions, so the
task never finishes with an error). -/
def awaitTask : TaskStatus → Option String
  | TaskStatus.cancelled => some "CancelledError"
  | _ => none

/-- The mutable state of `WhatsAppRPCClient`: the endpoint URL, whether
`self.ws` holds a connection object, the request-id counter, the
pending correlation table, whether an event callback is registered,
the receive-task slot, and the `_connected` flag. -/
structure ClientState where
  wsUrl : String
  ws : Bool
  request_id : Nat
  pending : List (Nat × Option Json)
  hasCallback : Bool
  recvTask : Option TaskStatus
  connectedFlag : Bool

/-- `WhatsAppRPCClient.__init__(ws_url)`. -/
def initClient (url : String) : ClientState :=
  { wsUrl := url, ws := false, request_id := 0, pending := [],
    hasCallback := false, recvTask := none, connectedFlag := false }

/-- The `connected` property: `self._connected and self.ws is not None`. -/
def isConnected (st : ClientState) : Bool :=
  st.connectedFlag && st.ws

/-- `connect()` on the success path: stores the connection object, sets
`_connected`, and starts the receive task.  The request-id counter and
the pending table are untouched. -/
def connectFn (st : ClientState) : ClientState :=
  { st with ws := true, connectedFlag := true,
            recvTask := some TaskStatus.running }

/-- `close()`: clears `_connected`; if a receive task exists, cancels it
and awaits it, swallowing `CancelledError`; if a connection object
exists, closes it and clears the slot.  Returns the new state together
with any exception that escaped (`none`: close returned normally). -/
def closeFn (st : ClientState) : ClientState × Option String :=
  let st1 := { st with connectedFlag := false }
  let r2 :=
    match st1.recvTask with
    | some ts =>
      let ts1 := cancelTask ts
      let e :=
        match awaitTask ts1 with
        | some exn => if exn = "CancelledError" then none else some exn
        | none => none
      ({ st1 with recvTask := some ts1 }, e)
    | none => (st1, (none : Option String))
  match r2.2 with
  | some exn => (r2.1, some exn)
  | none =>
    if r2.1.ws then ({ r2.1 with ws := false }, none)
    else (r2.1, none)

/-- Terminal outcome of one `call` invocation, one constructor per
raise/return site of `call` in `client.py`: the guard raise when not
connected; the exception of `ws.send` propagating; the timeout raise
carrying the method name and the timeout value; the RPC-error raise
carrying the code and message taken from the error object (with the
defaults of `error.get`); the `AttributeError` of `error.get` when the
truthy error value is not a dict; and the normal return of
`response.get("result")`. -/
inductive CallOutcome where
  | notConnected
  | sendError
  | timeoutErr (method : String) (timeout : Nat)
  | rpcError (code : Json) (message : Json)
  | attrError
  | success (result : Json)

/-- The request frame built by `call`:
`{"jsonrpc": "2.0", "id": req_id, "method": method}` plus `params` when
given. -/
def mkRequest (reqId : Nat) (method : String) (params : Option Json) : Json :=
  Json.obj ([("jsonrpc", Json.str "2.0"), ("id", Json.num (reqId : Int)),
             ("method", Json.str method)] ++
    match params with
    | none => []
    | some p => [("params", p)])

/-- Result of one `call` invocation: post-state, outcome, and the
request frame that was sent (`none`: no send was attempted). -/
structure CallResult where
  state : ClientState
  outcome : CallOutcome
  sent : Option Json

/-- `call(method, params, timeout)` as a function of the pre-state and
two oracles: `sendOk` (whether `ws.send` succeeds) and `resolution`
(the response frame the future is resolved with, `none` standing for
`asyncio.wait_for` timing out).  Faithful to `client.py` lines
101-141: the not-connected guard; the id increment; registration of a
fresh unresolved future; and, in a `finally`, `self.pending.pop(req_id,
None)` on every exit path.  On resolution, a truthy `error` field
raises the RPC error (with `error.get` defaults), a non-dict truthy
error raises `AttributeError`, and otherwise `response.get("result")`
is returned. -/
def callFull (st : ClientState) (method : String) (params : Option Json)
    (timeout : Nat) (sendOk : Bool)
    (resolution : Option (List (String × Json))) : CallResult :=
  if isConnected st = true then
    let reqId := st.request_id + 1
    let st1 := { st with request_id := reqId }
    let req := mkRequest reqId method params
    let p1 := pSet st1.pending reqId none
    if sendOk = false then
      { state := { st1 with pending := pPop p1 reqId },
        outcome := CallOutcome.sendError, sent := some req }
    else
      match resolution with
      | none =>
        { state := { st1 with pending := pPop p1 reqId },
          outcome := CallOutcome.timeoutErr method timeout,
          sent := some req }
      | some resp =>
        let p2 := pSet p1 reqId (some (Json.obj resp))
        let fin := pPop p2 reqId
        match lookupKey "error" resp with
        | some e =>
          if pyTruthy e = true then
            match e with
            | Json.obj efs =>
              { state := { st1 with pending := fin },
                outcome := CallOutcome.rpcError
                  (jGetD efs "code" (Json.num (-1)))
                  (jGetD efs "message" (Json.str "Unknown error")),
                sent := some req }
            | _ =>
              { state := { st1 with pending := fin },
                outcome := CallOutcome.attrError, sent := some req }
          else
            { state := { st1 with pending := fin },
              outcome := CallOutcome.success (jGetD resp "result" Json.null),
              sent := some req }
        | none =>
          { state := { st1 with pending := fin },
            outcome := CallOutcome.success (jGetD resp "result" Json.null),
            sent := some req }
  else { state := st, outcome := CallOutcome.notConnected, sent := none }

/-- The oracle inputs of one `call` invocation in a sequence. -/
structure CallOracle where
  method : String
  params : Option Json
  timeout : Nat
  sendOk : Bool
  resolution : Option (List (String × Json))

/-- A sequence of `call` invocations, threading the client state and
collecting the request id allocated by each invocation that passed the
connected guard (for a connected call the allocated id is the counter
value after the increment; a disconnected call allocates none). -/
def runCalls : ClientState → List CallOracle → ClientState × List Nat
  | st, [] => (st, [])
  | st, o :: os =>
    let r := callFull st o.method o.params o.timeout o.sendOk o.resolution
    let rest := runCalls r.state os
    if isConnected st = true then (rest.1, r.state.request_id :: rest.2)
    else (rest.1, rest.2)

/-! ### Concrete states and frames used by witnesses -/

/-- A connected client with counter 6 and one unrelated pending
request (id 3, unresolved), used as a concrete witness state. -/
def stOk : ClientState :=
  { wsUrl := "u", ws := true, request_id := 6, pending := [(3, none)],
    hasCallback := true, recvTask := some TaskStatus.running,
    connectedFlag := true }

/-- The error object of the spec example:
`{"code": 3, "message": "bad phone"}`. -/
def errBadPhone : List (String × Json) :=
  [("code", Json.num 3), ("message", Json.str "bad phone")]

/-- The response of the spec example:
`{"id": 7, "error": {"code": 3, "message": "bad phone"}}`. -/
def respBadPhone : List (String × Json) :=
  [("id", Json.num 7), ("error", Json.obj errBadPhone)]

/-- The event frame of the spec example:
`{"method": "event.message", "params": {"text": "hi"}}`. -/
def frameEvMessage : List (String × Json) :=
  [("method", Json.str "event.message"),
   ("params", Json.obj [("text", Json.str "hi")])]

/-! ### Association-list (dict) lemmas -/

theorem lookupKey_map_overwrite_self {α β : Type} [DecidableEq α]
    (l : List (α × β)) (k : α) (v : β)
    (hs : (lookupKey k l).isSome = true) :
    lookupKey k (l.map (fun e => if e.1 = k then (k, v) else e)) = some v := by
  induction l with
  | nil => simp [lookupKey] at hs
  | cons e l ih =>
    by_cases hek : e.1 = k
    · simp [lookupKey, hek]
    · simp only [lookupKey, hek, if_false] at hs
      simpa [lookupKey, hek] using ih hs

theorem lookupKey_map_overwrite_ne {α β : Type} [DecidableEq α]
    (l : List (α × β)) (k k2 : α) (v : β) (h : k2 ≠ k) :
    lookupKey k2 (l.map (fun e => if e.1 = k then (k, v) else e)) =
      lookupKey k2 l := by
  induction l with
  | nil => rfl
  | cons e l ih =>
    obtain ⟨a, b⟩ := e
    by_cases hek : a = k
    · subst hek
      simp [lookupKey, Ne.symm h, ih]
    · by_cases he2 : a = k2
      · subst he2
        simp [lookupKey, hek]
      · simp [lookupKey, hek, he2, ih]

theorem lookupKey_append_of_none {α β : Type} [DecidableEq α]
    (l l2 : List (α × β)) (k : α) (h : lookupKey k l = none) :
    lookupKey k (l ++ l2) = lookupKey k l2 := by
  induction l with
  | nil => rfl
  | cons e l ih =>
    by_cases hek : e.1 = k
    · simp [lookupKey, hek] at h
    · simp only [lookupKey, hek, if_false] at h
      simpa [lookupKey, hek] using ih h

theorem lookupKey_append_of_some {α β : Type} [DecidableEq α]
    (l l2 : List (α × β)) (k : α) (w : β) (h : lookupKey k l = some w) :
    lookupKey k (l ++ l2) = some w := by
  induction l with
  | nil => simp [lookupKey] at h
  | cons e l ih =>
    by_cases hek : e.1 = k
    · simp only [lookupKey, hek, if_true] at h
      simp [lookupKey, hek, h]
    · simp only [lookupKey, hek, if_false] at h
      simpa [lookupKey, hek] using ih h

theorem lookupKey_pSet_self {α β : Type} [DecidableEq α]
    (l : List (α × β)) (k : α) (v : β) :
    lookupKey k (pSet l k v) = some v := by
  unfold pSet
  by_cases hs : (lookupKey k l).isSome = true
  · simpa [hs] using lookupKey_map_overwrite_self l k v hs
  · have hn : lookupKey k l = none := by
      cases h : lookupKey k l
      · rfl
      · simp [h] at hs
    simp only [hn, Option.isSome_none, Bool.false_eq_true, if_false]
    rw [lookupKey_append_of_none l [(k, v)] k hn]
    simp [lookupKey]

theorem lookupKey_pSet_ne {α β : Type} [DecidableEq α]
    (l : List (α × β)) (k k2 : α) (v : β) (h : k2 ≠ k) :
    lookupKey k2 (pSet l k v) = lookupKey k2 l := by
  unfold pSet
  by_cases hs : (lookupKey k l).isSome = true
  · simpa [hs] using lookupKey_map_overwrite_ne l k k2 v h
  · have hn : lookupKey k l = none := by
      cases hx : lookupKey k l
      · rfl
      · simp [hx] at hs
    simp only [hn, Option.isSome_none, Bool.false_eq_true, if_false]
    cases h2 : lookupKey k2 l with
    | none =>
      rw [lookupKey_append_of_none l [(k, v)] k2 h2]
      simp [lookupKey, Ne.symm h]
    | some w =>
      rw [lookupKey_append_of_some l [(k, v)] k2 w h2]

theorem lookupKey_pPop_self {α β : Type} [DecidableEq α]
    (l : List (α × β)) (k : α) : lookupKey k (pPop l k) = none := by
  induction l with
  | nil => rfl
  | cons e l ih =>
    by_cases hek : e.1 = k
    · simpa [pPop, List.filter_cons, hek] using ih
    · simpa [pPop, List.filter_cons, hek, lookupKey] using ih

theorem lookupKey_pPop_ne {α β : Type} [DecidableEq α]
    (l : List (α × β)) (k k2 : α) (h : k2 ≠ k) :
    lookupKey k2 (pPop l k) = lookupKey k2 l := by
  induction l with
  | nil => rfl
  | cons e l ih =>
    obtain ⟨a, b⟩ := e
    by_cases hek : a = k
    · subst hek
      simpa [pPop, List.filter_cons, lookupKey, Ne.symm h] using ih
    · by_cases he2 : a = k2
      · subst he2
        simp [pPop, List.filter_cons, hek, lookupKey]
      · simpa [pPop, List.filter_cons, hek, lookupKey, he2] using ih

theorem pPop_map_overwrite {α β : Type} [DecidableEq α]
    (l : List (α × β)) (k : α) (v : β) :
    pPop (l.map (fun e => if e.1 = k then (k, v) else e)) k = pPop l k := by
  induction l with
  | nil => rfl
  | cons e l ih =>
    by_cases hek : e.1 = k
    · simpa [pPop, List.filter_cons, hek] using ih
    · simpa [pPop, List.filter_cons, hek] using ih

theorem pPop_pSet {α β : Type} [DecidableEq α]
    (l : List (α × β)) (k : α) (v : β) :
    pPop (pSet l k v) k = pPop l k := by
  unfold pSet
  by_cases hs : (lookupKey k l).isSome = true
  · simpa [hs] using pPop_map_overwrite l k v
  · simp only [hs, if_false]
    simp [pPop, List.filter_append]

/-! ### Characterization of `call` -/

theorem callFull_not_connected (st : ClientState) (m : String)
    (p : Option Json) (t : Nat) (so : Bool)
    (r : Option (List (String × Json))) (h : isConnected st = false) :
    callFull st m p t so r =
      { state := st, outcome := CallOutcome.notConnected, sent := none } := by
  simp [callFull, h]

theorem callFull_state (st : ClientState) (m : String) (p : Option Json)
    (t : Nat) (so : Bool) (r : Option (List (String × Json)))
    (h : isConnected st = true) :
    (callFull st m p t so r).state =
      { st with request_id := st.request_id + 1,
                pending := pPop st.pending (st.request_id + 1) } := by
  unfold callFull
  simp only [h, if_true]
  cases so with
  | false => simp [pPop_pSet]
  | true =>
    cases r with
    | none => simp [pPop_pSet]
    | some resp =>
      simp only [Bool.true_eq_false, if_false]
      cases hE : lookupKey "error" resp with
      | none => simp [pPop_pSet]
      | some e =>
        by_cases hT : pyTruthy e = true
        · cases e <;> simp [hT, pPop_pSet]
        · simp [hT, pPop_pSet]

theorem callFull_outcome_ne (st : ClientState) (m : String) (p : Option Json)
    (t : Nat) (so : Bool) (r : Option (List (String × Json)))
    (h : isConnected st = true) :
    (callFull st m p t so r).outcome ≠ CallOutcome.notConnected := by
  unfold callFull
  simp only [h, if_true]
  cases so with
  | false => simp
  | true =>
    cases r with
    | none => simp
    | some resp =>
      simp only [Bool.true_eq_false, if_false]
      cases hE : lookupKey "error" resp with
      | none => simp
      | some e =>
        by_cases hT : pyTruthy e = true
        · cases e <;> simp [hT]
        · simp [hT]

/-- A frame whose id field is the integer `k` with no entry for `k` in
the table is dropped without side effect by the receive loop. -/
theorem stepFrame_drop_missing (cb : Bool) (p : List (Nat × Option Json))
    (fields : List (String × Json)) (k : Nat)
    (hid : lookupKey "id" fields = some (Json.num (k : Int)))
    (hnone : lookupKey k p = none) :
    stepFrame cb p fields = (p, FrameAction.droppedId) := by
  simp [stepFrame, hid, idKey, Int.toNat_natCast, hnone]

/-! ### Claim theorems -/

/-- C4.  A `call` invoked while the session is not connected fails
immediately with the not-connected error, performs no send, and leaves
the state entirely unchanged: no request id is allocated and no entry
is added to the correlation table. -/
theorem c4_call_requires_connection (st : ClientState) (m : String)
    (p : Option Json) (t : Nat) (so : Bool)
    (r : Option (List (String × Json))) (h : isConnected st = false) :
    callFull st m p t so r =
      { state := st, outcome := CallOutcome.notConnected, sent := none } := by
  simp [callFull, h]

/-- Witness for C4 at the freshly initialized (disconnected) client. -/
theorem c4_call_requires_connection_witness :
    isConnected (initClient "ws://localhost:9400/ws/rpc") = false ∧
    callFull (initClient "ws://localhost:9400/ws/rpc") "status" none 30 true
        none =
      { state := initClient "ws://localhost:9400/ws/rpc",
        outcome := CallOutcome.notConnected, sent := none } :=
  ⟨rfl, c4_call_requires_connection (initClient "ws://localhost:9400/ws/rpc")
    "status" none 30 true none rfl⟩

/-- C5.  Every connected `call` invocation removes its own entry from
the correlation table on every exit path (the oracles `so` and `r`
range over send failure, timeout, RPC-error resolution and successful
resolution), and leaves every other entry of the table exactly as it
was: no invocation leaks a correlation-table entry. -/
theorem c5_no_pending_leak (st : ClientState) (m : String) (p : Option Json)
    (t : Nat) (so : Bool) (r : Option (List (String × Json)))
    (h : isConnected st = true) :
    lookupKey (st.request_id + 1) (callFull st m p t so r).state.pending =
      none ∧
    ∀ k2, k2 ≠ st.request_id + 1 →
      lookupKey k2 (callFull st m p t so r).state.pending =
        lookupKey k2 st.pending := by
  rw [callFull_state st m p t so r h]
  exact ⟨lookupKey_pPop_self st.pending (st.request_id + 1),
    fun k2 h2 => lookupKey_pPop_ne st.pending (st.request_id + 1) k2 h2⟩

/-- Witness for C5 on a connected client holding an unrelated pending
entry, exercised on the timeout path. -/
theorem c5_no_pending_leak_witness :
    isConnected stOk = true ∧
    lookupKey 7 (callFull stOk "send" none 30 true none).state.pending =
      none ∧
    lookupKey 3 (callFull stOk "send" none 30 true none).state.pending =
      lookupKey 3 stOk.pending :=
  ⟨rfl,
   (c5_no_pending_leak stOk "send" none 30 true none rfl).1,
   (c5_no_pending_leak stOk "send" none 30 true none rfl).2 3 (by decide)⟩

/-- C3.  A connected `call` whose future is never resolved (the
`resolution` oracle is `none`, standing for `asyncio.wait_for` timing
out) fails with the timeout error carrying the method name and the
timeout value, its entry is removed from the correlation table, every
other entry is untouched, and the id is unroutable thereafter: the
receive loop drops, with no side effect, any later frame whose id field
is that integer. -/
theorem c3_timeout_cancels_entry (st : ClientState) (m : String)
    (p : Option Json) (t : Nat) (h : isConnected st = true) :
    (callFull st m p t true none).outcome = CallOutcome.timeoutErr m t ∧
    lookupKey (st.request_id + 1)
      (callFull st m p t true none).state.pending = none ∧
    (∀ k2, k2 ≠ st.request_id + 1 →
      lookupKey k2 (callFull st m p t true none).state.pending =
        lookupKey k2 st.pending) ∧
    ∀ cb fields,
      lookupKey "id" fields = some (Json.num ((st.request_id + 1 : Nat) : Int)) →
      stepFrame cb (callFull st m p t true none).state.pending fields =
        ((callFull st m p t true none).state.pending,
         FrameAction.droppedId) := by
  refine ⟨by simp [callFull, h], ?_, ?_, ?_⟩
  · rw [callFull_state st m p t true none h]
    exact lookupKey_pPop_self st.pending (st.request_id + 1)
  · intro k2 h2
    rw [callFull_state st m p t true none h]
    exact lookupKey_pPop_ne st.pending (st.request_id + 1) k2 h2
  · intro cb fields hid
    refine stepFrame_drop_missing cb _ fields (st.request_id + 1) hid ?_
    rw [callFull_state st m p t true none h]
    exact lookupKey_pPop_self st.pending (st.request_id + 1)

/-- Witness for C3: a timed-out call on a connected client, with the
late response frame `{"id": 7, "result": "late"}` dropped. -/
theorem c3_timeout_cancels_entry_witness :
    isConnected stOk = true ∧
    (callFull stOk "qr" none 30 true none).outcome =
      CallOutcome.timeoutErr "qr" 30 ∧
    lookupKey "id" [("id", Json.num 7), ("result", Json.str "late")] =
      some (Json.num ((7 : Nat) : Int)) ∧
    stepFrame true (callFull stOk "qr" none 30 true none).state.pending
        [("id", Json.num 7), ("result", Json.str "late")] =
      ((callFull stOk "qr" none 30 true none).state.pending,
       FrameAction.droppedId) :=
  ⟨rfl,
   (c3_timeout_cancels_entry stOk "qr" none 30 rfl).1,
   rfl,
   (c3_timeout_cancels_entry stOk "qr" none 30 rfl).2.2.2 true
     [("id", Json.num 7), ("result", Json.str "late")] rfl⟩

/-- C6 (amended).  A connected `call` resolved with a response whose
`error` field is a truthy (non-empty) object fails with the RPC error
carrying the code and message taken from that object (with the
defaults `-1` and `"Unknown error"` of `error.get` when a key is
absent), and every other entry of the correlation table is untouched,
so no other pending call is affected. -/
theorem c6_rpc_error_propagation (st : ClientState) (m : String)
    (p : Option Json) (t : Nat) (resp : List (String × Json))
    (efs : List (String × Json)) (h : isConnected st = true)
    (he : lookupKey "error" resp = some (Json.obj efs))
    (ht : pyTruthy (Json.obj efs) = true) :
    (callFull st m p t true (some resp)).outcome =
      CallOutcome.rpcError (jGetD efs "code" (Json.num (-1)))
        (jGetD efs "message" (Json.str "Unknown error")) ∧
    ∀ k2, k2 ≠ st.request_id + 1 →
      lookupKey k2 (callFull st m p t true (some resp)).state.pending =
        lookupKey k2 st.pending := by
  constructor
  · simp [callFull, h, he, ht]
  · intro k2 h2
    rw [callFull_state st m p t true (some resp) h]
    exact lookupKey_pPop_ne st.pending (st.request_id + 1) k2 h2

/-- Witness for C6 with the response of the spec example,
`{"id": 7, "error": {"code": 3, "message": "bad phone"}}`, resolved
against the pending request with id 7; the unrelated pending entry 3
is untouched. -/
theorem c6_rpc_error_propagation_witness :
    lookupKey "error" respBadPhone = some (Json.obj errBadPhone) ∧
    (callFull stOk "send" none 30 true (some respBadPhone)).outcome =
      CallOutcome.rpcError (jGetD errBadPhone "code" (Json.num (-1)))
        (jGetD errBadPhone "message" (Json.str "Unknown error")) ∧
    jGetD errBadPhone "code" (Json.num (-1)) = Json.num 3 ∧
    jGetD errBadPhone "message" (Json.str "Unknown error") =
      Json.str "bad phone" ∧
    lookupKey 3 (callFull stOk "send" none 30
        true (some respBadPhone)).state.pending = lookupKey 3 stOk.pending :=
  ⟨rfl,
   (c6_rpc_error_propagation stOk "send" none 30 respBadPhone errBadPhone
     rfl rfl rfl).1,
   rfl, rfl,
   (c6_rpc_error_propagation stOk "send" none 30 respBadPhone errBadPhone
     rfl rfl rfl).2 3 (by decide)⟩

/-- Counterexample to C6 as stated: the response
`{"id": 7, "error": {}}` carries an `error` field that is present and
non-null, yet the call does not fail with an RPC error — the guard
`if "error" in response and response["error"]:` tests Python
truthiness, an empty dict is falsy, and the call returns the (absent)
result as a null success. -/
theorem c6_empty_error_object_counterexample :
    lookupKey "error" [("id", Json.num 7), ("error", Json.obj [])] =
      some (Json.obj []) ∧
    Json.obj [] ≠ Json.null ∧
    (callFull stOk "send" none 30 true
        (some [("id", Json.num 7), ("error", Json.obj [])])).outcome =
      CallOutcome.success Json.null :=
  ⟨rfl, fun hx => Json.noConfusion hx, rfl⟩

/-- C10.  A connected `call` resolved with a response that has no
`result` field and whose `error` field is absent or null succeeds and
returns the null value (`response.get("result")` is `None`), rather
than failing as a protocol violation. -/
theorem c10_absent_result_null_success (st : ClientState) (m : String)
    (p : Option Json) (t : Nat) (resp : List (String × Json))
    (h : isConnected st = true)
    (hr : lookupKey "result" resp = none)
    (he : lookupKey "error" resp = none ∨
          lookupKey "error" resp = some Json.null) :
    (callFull st m p t true (some resp)).outcome =
      CallOutcome.success Json.null := by
  rcases he with he | he
  · simp [callFull, h, he, jGetD, hr]
  · simp [callFull, h, he, pyTruthy, jGetD, hr]

/-- Witness for C10 at the bare response `{"id": 7}` and at the
response `{"id": 7, "error": null}`. -/
theorem c10_absent_result_null_success_witness :
    lookupKey "result" [("id", Json.num 7)] = none ∧
    (callFull stOk "status" none 30 true
        (some [("id", Json.num 7)])).outcome =
      CallOutcome.success Json.null ∧
    (callFull stOk "status" none 30 true
        (some [("id", Json.num 7), ("error", Json.null)])).outcome =
      CallOutcome.success Json.null :=
  ⟨rfl,
   c10_absent_result_null_success stOk "status" none 30
     [("id", Json.num 7)] rfl rfl (Or.inl rfl),
   c10_absent_result_null_success stOk "status" none 30
     [("id", Json.num 7), ("error", Json.null)] rfl rfl (Or.inr rfl)⟩

/-- C1 (amended).  For every inbound frame with no id whose method (a
string) starts with `"event."`, the receive loop invokes the
registered event callback with the whole frame and resolves no pending
request (the table is returned unchanged); the registered handler (the
web layer `on_event`) then derives the event name by replacing every
occurrence of `"event."` in the method with the empty string, pairs it
with the params payload of the frame (default empty object), and emits
the two as `{"type": name, "data": params}`. -/
theorem c1_event_dispatch (p : List (Nat × Option Json))
    (fields : List (String × Json)) (m : String)
    (hid : lookupKey "id" fields = none)
    (hm : lookupKey "method" fields = some (Json.str m))
    (hpre : pyStarts m "event." = true) :
    stepFrame true p fields =
      (p, FrameAction.eventInvoked (Json.obj fields)) ∧
    on_event fields =
      some (Json.obj [("type", Json.str (pyReplace m "event." "")),
                      ("data", jGetD fields "params" (Json.obj []))]) := by
  constructor
  · simp [stepFrame, hid, eventStep, jGetD, hm, hpre]
  · simp [on_event, jGetD, hm, hpre]

/-- Witness for C1 at the spec example frame
`{"method": "event.message", "params": {"text": "hi"}}`: the callback
gets the frame, the pending table (one unresolved entry) is untouched,
and the handler derives name `"message"` with params `{"text": "hi"}`. -/
theorem c1_event_dispatch_witness :
    lookupKey "id" frameEvMessage = none ∧
    pyStarts "event.message" "event." = true ∧
    stepFrame true [(1, (none : Option Json))] frameEvMessage =
      ([(1, none)], FrameAction.eventInvoked (Json.obj frameEvMessage)) ∧
    on_event frameEvMessage =
      some (Json.obj [("type", Json.str (pyReplace "event.message" "event." "")),
                      ("data", jGetD frameEvMessage "params" (Json.obj []))]) ∧
    pyReplace "event.message" "event." "" = "message" ∧
    jGetD frameEvMessage "params" (Json.obj []) =
      Json.obj [("text", Json.str "hi")] :=
  ⟨rfl, rfl,
   (c1_event_dispatch [(1, none)] frameEvMessage "event.message"
     rfl rfl rfl).1,
   (c1_event_dispatch [(1, none)] frameEvMessage "event.message"
     rfl rfl rfl).2,
   rfl, rfl⟩

/-- Counterexample to C1 as stated: for the frame with method
`"event.revent.x"` (which begins with the reserved string) the handler
derives the name `"rx"` — `str.replace` deletes every occurrence of
`"event."`, not only the leading one — whereas the name with the
leading `"event."` stripped is `"revent.x"`. -/
theorem c1_strip_counterexample :
    ("event." ++ "revent.x" : String) = "event.revent.x" ∧
    on_event [("method", Json.str "event.revent.x"),
              ("params", Json.obj [("k", Json.str "v")])] =
      some (Json.obj [("type", Json.str "rx"),
                      ("data", Json.obj [("k", Json.str "v")])]) ∧
    ("rx" : String) ≠ "revent.x" :=
  ⟨rfl, rfl, by decide⟩

/-- C2 (amended).  For a frame carrying the integer id `k`: if `k` is
registered in the correlation table with an unresolved future, the
receive loop delivers the whole frame to that future exactly once —
the entry stays in the table, now resolved; it is not removed by the
resolve step — and every other entry is untouched; if `k` is not
registered, the dispatch is a no-op and the frame is dropped.  The
entry of a call is removed by the caller itself: after any connected
`call` invocation returns, its id is no longer in the table. -/
theorem c2_resolution_delivery (cb : Bool) (p : List (Nat × Option Json))
    (fields : List (String × Json)) (k : Nat)
    (hid : lookupKey "id" fields = some (Json.num (k : Int))) :
    (lookupKey k p = some none →
      stepFrame cb p fields =
        (pSet p k (some (Json.obj fields)), FrameAction.resolved k) ∧
      lookupKey k (pSet p k (some (Json.obj fields))) =
        some (some (Json.obj fields)) ∧
      ∀ k2, k2 ≠ k →
        lookupKey k2 (pSet p k (some (Json.obj fields))) = lookupKey k2 p) ∧
    (lookupKey k p = none →
      stepFrame cb p fields = (p, FrameAction.droppedId)) ∧
    (∀ st m pr t so r, isConnected st = true →
      lookupKey (st.request_id + 1)
        (callFull st m pr t so r).state.pending = none) := by
  refine ⟨fun hreg => ⟨?_, ?_, ?_⟩,
    fun hnone => stepFrame_drop_missing cb p fields k hid hnone, ?_⟩
  · simp [stepFrame, hid, idKey, Int.toNat_natCast, hreg]
  · exact lookupKey_pSet_self p k (some (Json.obj fields))
  · exact fun k2 h2 => lookupKey_pSet_ne p k k2 (some (Json.obj fields)) h2
  · intro st m pr t so r h
    rw [callFull_state st m pr t so r h]
    exact lookupKey_pPop_self st.pending (st.request_id + 1)

/-- Witness for C2: the frame `{"id": 1, "result": "ok"}` resolves the
registered entry 1 (which stays, resolved), leaves the unrelated entry
9 untouched, and is dropped when 1 is not registered; after a concrete
connected call its fresh id 7 is absent from the table. -/
theorem c2_resolution_delivery_witness :
    lookupKey "id" [("id", Json.num 1), ("result", Json.str "ok")] =
      some (Json.num ((1 : Nat) : Int)) ∧
    stepFrame true [(1, none), (9, some Json.null)]
        [("id", Json.num 1), ("result", Json.str "ok")] =
      (pSet [(1, none), (9, some Json.null)] 1
        (some (Json.obj [("id", Json.num 1), ("result", Json.str "ok")])),
       FrameAction.resolved 1) ∧
    lookupKey 9 (pSet [(1, none), (9, some Json.null)] 1
        (some (Json.obj [("id", Json.num 1), ("result", Json.str "ok")]))) =
      lookupKey 9 [(1, (none : Option Json)), (9, some Json.null)] ∧
    stepFrame true [(2, (none : Option Json))]
        [("id", Json.num 1), ("result", Json.str "ok")] =
      ([(2, none)], FrameAction.droppedId) ∧
    lookupKey 7 (callFull stOk "status" none 30 true none).state.pending =
      none :=
  ⟨rfl,
   ((c2_resolution_delivery true [(1, none), (9, some Json.null)]
      [("id", Json.num 1), ("result", Json.str "ok")] 1 rfl).1 rfl).1,
   ((c2_resolution_delivery true [(1, none), (9, some Json.null)]
      [("id", Json.num 1), ("result", Json.str "ok")] 1 rfl).1 rfl).2.2 9
     (by decide),
   (c2_resolution_delivery true [(2, none)]
      [("id", Json.num 1), ("result", Json.str "ok")] 1 rfl).2.1 rfl,
   (c2_resolution_delivery true [(2, none)]
      [("id", Json.num 1), ("result", Json.str "ok")] 1 rfl).2.2 stOk
     "status" none 30 true none rfl⟩

/-- Counterexample to C2 as stated: resolving the frame
`{"id": 1, "result": "ok"}` against the table `{1: unresolved}`
delivers the frame but leaves the entry for id 1 in the table (now
resolved) — `_receive_loop` only calls `set_result`, and the removal
happens later in the `finally` of `call` — contradicting that the
entry is removed by the resolve step itself. -/
theorem c2_entry_not_removed_counterexample :
    stepFrame true [(1, (none : Option Json))]
        [("id", Json.num 1), ("result", Json.str "ok")] =
      ([(1, some (Json.obj [("id", Json.num 1), ("result", Json.str "ok")]))],
       FrameAction.resolved 1) ∧
    lookupKey 1 (stepFrame true [(1, (none : Option Json))]
        [("id", Json.num 1), ("result", Json.str "ok")]).1 =
      some (some (Json.obj [("id", Json.num 1), ("result", Json.str "ok")])) ∧
    lookupKey 1 (stepFrame true [(1, (none : Option Json))]
        [("id", Json.num 1), ("result", Json.str "ok")]).1 ≠ none :=
  ⟨rfl, rfl, fun hx => Option.noConfusion hx⟩

/-- C8.  A frame that fails to parse is logged and skipped by the
receive loop: the correlation table is unchanged, the loop does not
terminate, and the rest of the stream is processed exactly as if the
malformed frame had not been there; concretely, after one malformed
frame a well-formed response for the still-pending request 5 is
delivered normally and the loop is still alive. -/
theorem c8_malformed_frame_skipped :
    (∀ cb p ms, runLoop cb p (Msg.bad :: ms) =
      ((runLoop cb p ms).1,
       FrameAction.parseErr :: (runLoop cb p ms).2.1,
       (runLoop cb p ms).2.2)) ∧
    runLoop true [(5, (none : Option Json))]
        [Msg.bad, Msg.frame [("id", Json.num 5), ("result", Json.str "ok")]] =
      ([(5, some (Json.obj [("id", Json.num 5), ("result", Json.str "ok")]))],
       [FrameAction.parseErr, FrameAction.resolved 5], true) :=
  ⟨fun _cb _p _ms => rfl, rfl⟩

/-- C9.  `close()` is idempotent: a second `close` on an
already-closed session produces the identical state and, like every
`close`, raises nothing (`CancelledError` from awaiting the cancelled
receive task is swallowed); after any `close` the session is
disconnected and the connection handle is released. -/
theorem c9_close_idempotent (st : ClientState) :
    closeFn (closeFn st).1 = closeFn st ∧
    (closeFn st).2 = none ∧
    isConnected (closeFn st).1 = false ∧
    (closeFn st).1.ws = false := by
  rcases st with ⟨url, ws, rid, pend, cb, task, conn⟩
  rcases task with _ | ts
  · cases ws <;> simp [closeFn, isConnected]
  · cases ts <;> cases ws <;>
      simp [closeFn, cancelTask, awaitTask, isConnected]

/-- The ids collected by a run of connected calls are the interval
starting one above the incoming counter. -/
theorem runCalls_ids (os : List CallOracle) :
    ∀ st : ClientState, isConnected st = true →
      (runCalls st os).2 = List.range' (st.request_id + 1) os.length := by
  induction os with
  | nil =>
    intro st h
    rfl
  | cons o os ih =>
    intro st h
    have hst := callFull_state st o.method o.params o.timeout o.sendOk
      o.resolution h
    have hconn : isConnected (callFull st o.method o.params o.timeout
        o.sendOk o.resolution).state = true := by
      rw [hst]
      simpa [isConnected] using h
    simp only [runCalls, h, if_true]
    rw [ih _ hconn, hst]
    simp [List.range'_succ]

/-- C7.  Starting from any connected state, a sequence of `call`
invocations allocates the ids `counter+1, counter+2, ...`, each one
greater than the previous: the collected ids form the interval
`range' (counter+1)`, are strictly increasing, contain no duplicate
(never recycled), and for a fresh client (counter 0) start at 1. -/
theorem c7_ids_strictly_increasing (st : ClientState) (os : List CallOracle)
    (h : isConnected st = true) :
    (runCalls st os).2 = List.range' (st.request_id + 1) os.length ∧
    List.Chain' (fun a b => a < b) (runCalls st os).2 ∧
    (runCalls st os).2.Nodup ∧
    (st.request_id = 0 → (runCalls st os).2 = List.range' 1 os.length) := by
  have hids := runCalls_ids os st h
  refine ⟨hids, ?_, ?_, ?_⟩
  · rw [hids]
    exact (List.pairwise_lt_range' (st.request_id + 1) os.length 1).chain'
  · rw [hids]
    exact List.nodup_range' (st.request_id + 1) os.length
  · intro h0
    rw [hids, h0]

/-- Witness for C7: three calls on a freshly connected client allocate
exactly the ids `[1, 2, 3]` (the third call exercises the send-failure
path and still consumes an id, as in the source). -/
theorem c7_ids_strictly_increasing_witness :
    isConnected (connectFn (initClient "u")) = true ∧
    (connectFn (initClient "u")).request_id = 0 ∧
    (runCalls (connectFn (initClient "u"))
        [⟨"status", none, 30, true, none⟩,
         ⟨"qr", none, 30, true, some [("id", Json.num 1)]⟩,
         ⟨"send", none, 30, false, none⟩]).2 = List.range' 1 3 ∧
    List.range' 1 3 = [1, 2, 3] :=
  ⟨rfl, rfl,
   (c7_ids_strictly_increasing (connectFn (initClient "u"))
      [⟨"status", none, 30, true, none⟩,
       ⟨"qr", none, 30, true, some [("id", Json.num 1)]⟩,
       ⟨"send", none, 30, false, none⟩] rfl).2.2.2 rfl,
   rfl⟩

end WhatsappRpc
